import Mathlib

/-!
# Verification of the OpenCL matrix / MLP-SGD system

The repository's visible driver (`src/main.cpp`) is pure harness code; the
core components (`KernelRegistry`, `DeviceMatrix` alias `MatrixCL`, `Layer`,
`Network`, `SGDTrainer`) live in `matrix_opencl.hpp` / `mlp_sgd.cpp`, which
are not part of the visible sources.  Those components are therefore
modelled from the specification, faithfully to its words; the harness
(`printMatrix`, `main`) is embedded directly from `src/main.cpp`.

Matrix elements are modelled as exact rationals (`ℚ`): every arithmetic
identity of the model holds exactly, hence in particular within the
floating-point tolerance ε = 1e-5 used by the spec and the harness's
`approxEqual`.
-/

/-! ## Row-major data layer -/

/-- Row-major element access into a flat buffer with `c` columns;
out-of-range reads default to `0`. -/
def matGet (c : Nat) (d : List ℚ) (i j : Nat) : ℚ :=
  d.getD (i * c + j) 0

/-- Build the row-major flat buffer of an `r × c` matrix from an entry
function. -/
def mkData (r c : Nat) (f : Nat → Nat → ℚ) : List ℚ :=
  List.ofFn (fun t : Fin (r * c) => f (t.1 / c) (t.1 % c))

theorem row_major_lt {r c i j : Nat} (hi : i < r) (hj : j < c) :
    i * c + j < r * c := by
  have hstep : (i + 1) * c ≤ r * c := Nat.mul_le_mul_right c hi
  have hexp : (i + 1) * c = i * c + c := by ring
  omega

@[simp] theorem mkData_length (r c : Nat) (f : Nat → Nat → ℚ) :
    (mkData r c f).length = r * c := by
  simp [mkData]

theorem mkData_getD {r c i j : Nat} (f : Nat → Nat → ℚ)
    (hi : i < r) (hj : j < c) :
    (mkData r c f).getD (i * c + j) 0 = f i j := by
  have hb : i * c + j < r * c := row_major_lt hi hj
  have hlen : i * c + j < (mkData r c f).length := by
    simpa using hb
  rw [List.getD_eq_getElem _ _ hlen]
  simp only [mkData, List.getElem_ofFn]
  have hc : 0 < c := Nat.lt_of_le_of_lt (Nat.zero_le j) hj
  have hdiv : (i * c + j) / c = i := by
    rw [Nat.mul_comm i c, Nat.mul_add_div hc]
    simp [Nat.div_eq_of_lt hj]
  have hmod : (i * c + j) % c = j := by
    rw [Nat.mul_comm i c, Nat.mul_add_mod]
    exact Nat.mod_eq_of_lt hj
  rw [hdiv, hmod]

theorem matGet_mkData {r c i j : Nat} (f : Nat → Nat → ℚ)
    (hi : i < r) (hj : j < c) :
    matGet c (mkData r c f) i j = f i j :=
  mkData_getD f hi hj

/-- Two `mkData` buffers agree when the entry functions agree on the
in-range index rectangle. -/
theorem mkData_congr {r c : Nat} {f g : Nat → Nat → ℚ}
    (h : ∀ i j, i < r → j < c → f i j = g i j) :
    mkData r c f = mkData r c g := by
  unfold mkData
  congr 1
  funext t
  rcases Nat.eq_zero_or_pos c with hc | hc
  · exact absurd t.2 (by simp [hc])
  · have ht : t.1 < r * c := t.2
    have ht2 : t.1 < c * r := Nat.lt_of_lt_of_le ht (Nat.le_of_eq (Nat.mul_comm r c))
    have hdiv : t.1 / c < r := Nat.div_lt_of_lt_mul ht2
    have hmod : t.1 % c < c := Nat.mod_lt _ hc
    exact h _ _ hdiv hmod

/-! ## Error taxonomy (spec §7) -/

/-- Modelled from the spec: the error taxonomy of §7 for the missing core
(`matrix_opencl.hpp` / `mlp_sgd.cpp`). -/
inductive MatrixError where
  | NotInitialized
  | KernelNotFound
  | DimensionMismatch
  | DeviceTransferError
  | ForwardNotCalled
  deriving DecidableEq, Repr

/-! ## Devices, kernel source, compiled artifacts, registry (spec §4.1) -/

/-- Modelled from the spec: an accelerator device, identified for the
per-device build-log mapping of §6. -/
structure Device where
  devId : Nat
  deriving DecidableEq, Repr

/-- Modelled from the spec: the kernel source handed to the registry;
`wellFormed` abstracts whether the accelerator's compiler accepts it
(build failure is triggered by "intentionally malformed kernel source"). -/
structure KernelSource where
  srcId : Nat
  wellFormed : Bool
  deriving DecidableEq, Repr

/-- Modelled from the spec: one compiled artifact per
(kernel source, device set) pair (§3 CompiledProgram). -/
structure CompiledProgram where
  srcId : Nat
  deviceIds : List Nat
  deriving DecidableEq, Repr

/-- Modelled from the spec: the per-device compiler diagnostic text
produced on a failed build; always a non-empty string. -/
def buildLogText (src : KernelSource) (d : Device) : String :=
  "error: kernel source " ++ toString src.srcId ++ " rejected on device "
    ++ toString d.devId

/-- Modelled from the spec: a `BuildError` carries an ordered mapping from
device identifier to compiler log text (§6 diagnostic surface). -/
structure BuildError where
  logs : List (Device × String)
  deriving DecidableEq, Repr

/-- Modelled from the spec: the process-wide kernel registry; `inited`
records whether `initializeKernels` has completed, `programs` are the
cached compiled artifacts. -/
structure KernelRegistry where
  inited : Bool
  programs : List CompiledProgram
  deriving DecidableEq, Repr

/-- Modelled from the spec (§4.1 contract for `initialize(context,
devices)` alias `initializeKernels`): compiles the kernel source for the
device set exactly once; a repeated call on an already-initialized registry
is a no-op; on compiler failure it fails with a `BuildError` carrying, per
device, the diagnostic text, and leaves the registry state untouched. -/
def setupKernels (reg : KernelRegistry) (src : KernelSource)
    (devices : List Device) : Except BuildError KernelRegistry :=
  if reg.inited then .ok reg
  else if src.wellFormed then
    .ok { inited := true,
          programs := reg.programs ++ [⟨src.srcId, devices.map Device.devId⟩] }
  else .error ⟨devices.map (fun d => (d, buildLogText src d))⟩

/-! ## DeviceMatrix (spec §3, §4.2)

A `DeviceMatrix` owns a device buffer of fixed extent; `buf` is the
device-buffer handle identifier (allocation order), `valid` models whether
the underlying buffer is still accepted by the runtime (a stale/invalid
buffer makes the device-to-host transfer fail).  Operations thread an
allocation counter `nb`: an operation that returns a new matrix allocates
buffer `nb` and advances the counter; an operation that fails allocates
nothing and leaves the counter unchanged. -/

/-- Modelled from the spec: `DeviceMatrix` (alias `MatrixCL`), §3 data
model — `{rows, cols, buffer}` plus a validity bit for the device-transfer
error path. -/
structure DeviceMatrix where
  rows : Nat
  cols : Nat
  buf : Nat
  data : List ℚ
  valid : Bool
  deriving DecidableEq, Repr

/-- Element access on a device matrix (row-major). -/
def DeviceMatrix.get (m : DeviceMatrix) (i j : Nat) : ℚ :=
  matGet m.cols m.data i j

/-- The result of a matrix operation: the outcome plus the allocation
counter after the call. -/
abbrev OpResult (α : Type) := Except MatrixError α × Nat

/-- Modelled from the spec (§4.2): construction from host data allocates a
device buffer and performs a blocking host-to-device copy of the row-major
sequence. -/
def MatrixCL.fromHost (r c : Nat) (x : List ℚ) (nb : Nat) :
    DeviceMatrix × Nat :=
  (⟨r, c, nb, x, true⟩, nb + 1)

/-- Modelled from the spec (§4.2): `copyToHost()` performs a blocking
device-to-host copy and returns the flattened row-major sequence; it fails
with a device-error when the underlying transfer is rejected (e.g., a
stale/invalid buffer). -/
def MatrixCL.copyToHost (m : DeviceMatrix) : Except MatrixError (List ℚ) :=
  if m.valid then .ok m.data else .error .DeviceTransferError

/-- Modelled from the spec (§4.1, §4.2): `multiply(A, B)` — standard
matrix product, guarded by registry initialization and by the
`A.cols == B.rows` dimension rule; result shape `(A.rows, B.cols)`. -/
def MatrixCL.multiply (reg : KernelRegistry) (A B : DeviceMatrix)
    (nb : Nat) : OpResult DeviceMatrix :=
  if ¬ reg.inited then (.error .NotInitialized, nb)
  else if A.cols ≠ B.rows then (.error .DimensionMismatch, nb)
  else
    (.ok ⟨A.rows, B.cols, nb,
          mkData A.rows B.cols (fun i j =>
            ((List.range A.cols).map
              (fun p => A.get i p * B.get p j)).sum),
          true⟩,
     nb + 1)

/-- Modelled from the spec (§4.2): `multiplyTransposedLeft(A, B)` computes
`A^T · B` as a fused kernel (no transposed buffer is materialized);
dimension rule on the logical post-transpose shapes: `A.rows == B.rows`;
result shape `(A.cols, B.cols)`. -/
def MatrixCL.multiplyTransposedLeft (reg : KernelRegistry)
    (A B : DeviceMatrix) (nb : Nat) : OpResult DeviceMatrix :=
  if ¬ reg.inited then (.error .NotInitialized, nb)
  else if A.rows ≠ B.rows then (.error .DimensionMismatch, nb)
  else
    (.ok ⟨A.cols, B.cols, nb,
          mkData A.cols B.cols (fun i j =>
            ((List.range A.rows).map
              (fun p => A.get p i * B.get p j)).sum),
          true⟩,
     nb + 1)

/-- Modelled from the spec (§4.2): `multiplyTransposedRight(A, B)` computes
`A · B^T` as a fused kernel; dimension rule on the logical post-transpose
shapes: `A.cols == B.cols`; result shape `(A.rows, B.rows)`. -/
def MatrixCL.multiplyTransposedRight (reg : KernelRegistry)
    (A B : DeviceMatrix) (nb : Nat) : OpResult DeviceMatrix :=
  if ¬ reg.inited then (.error .NotInitialized, nb)
  else if A.cols ≠ B.cols then (.error .DimensionMismatch, nb)
  else
    (.ok ⟨A.rows, B.rows, nb,
          mkData A.rows B.rows (fun i j =>
            ((List.range A.cols).map
              (fun p => A.get i p * B.get j p)).sum),
          true⟩,
     nb + 1)

/-- Modelled from the spec (§4.2): `add(A, B)` — elementwise on identical
shapes, with row-broadcast additionally supported when `B.rows == 1`
(bias addition); any other shape combination fails with
`DimensionMismatch`. -/
def MatrixCL.add (reg : KernelRegistry) (A B : DeviceMatrix)
    (nb : Nat) : OpResult DeviceMatrix :=
  if ¬ reg.inited then (.error .NotInitialized, nb)
  else if A.rows = B.rows ∧ A.cols = B.cols then
    (.ok ⟨A.rows, A.cols, nb,
          mkData A.rows A.cols (fun i j => A.get i j + B.get i j), true⟩,
     nb + 1)
  else if B.rows = 1 ∧ A.cols = B.cols then
    (.ok ⟨A.rows, A.cols, nb,
          mkData A.rows A.cols (fun i j => A.get i j + B.get 0 j), true⟩,
     nb + 1)
  else (.error .DimensionMismatch, nb)

/-- Modelled from the spec (§4.2): `subtract(A, B)` — elementwise,
identical shapes required. -/
def MatrixCL.subtract (reg : KernelRegistry) (A B : DeviceMatrix)
    (nb : Nat) : OpResult DeviceMatrix :=
  if ¬ reg.inited then (.error .NotInitialized, nb)
  else if A.rows = B.rows ∧ A.cols = B.cols then
    (.ok ⟨A.rows, A.cols, nb,
          mkData A.rows A.cols (fun i j => A.get i j - B.get i j), true⟩,
     nb + 1)
  else (.error .DimensionMismatch, nb)

/-- Modelled from the spec (§4.2, §9 open question): an activation is a
pair of an elementwise function and its derivative; the spec's closed set
{identity, sigmoid, relu, tanh} is treated as a configurable extension
point, as §9 directs. -/
structure Activation where
  fn : ℚ → ℚ
  deriv : ℚ → ℚ

/-- The identity activation (derivative constantly 1). -/
def Activation.identityAct : Activation :=
  ⟨fun x => x, fun _ => 1⟩

/-- The relu activation with subgradient 0 at the origin. -/
def Activation.reluAct : Activation :=
  ⟨fun x => max 0 x, fun x => if 0 < x then 1 else 0⟩

/-- Modelled from the spec (§4.2): `applyActivation(A, fn)` — elementwise,
same shape. -/
def MatrixCL.applyActivation (reg : KernelRegistry) (A : DeviceMatrix)
    (act : Activation) (nb : Nat) : OpResult DeviceMatrix :=
  if ¬ reg.inited then (.error .NotInitialized, nb)
  else
    (.ok ⟨A.rows, A.cols, nb,
          mkData A.rows A.cols (fun i j => act.fn (A.get i j)), true⟩,
     nb + 1)

/-- Modelled from the spec (§4.2): `activationDerivative(A, fn)` —
elementwise, same shape. -/
def MatrixCL.activationDerivative (reg : KernelRegistry) (A : DeviceMatrix)
    (act : Activation) (nb : Nat) : OpResult DeviceMatrix :=
  if ¬ reg.inited then (.error .NotInitialized, nb)
  else
    (.ok ⟨A.rows, A.cols, nb,
          mkData A.rows A.cols (fun i j => act.deriv (A.get i j)), true⟩,
     nb + 1)

/-- Modelled from the spec (§4.3): the Hadamard product `⊙` used by the
backward pass (`gradOutput ⊙ activationDerivative(preActivation)`);
elementwise, identical shapes required. -/
def MatrixCL.elementwiseMul (reg : KernelRegistry) (A B : DeviceMatrix)
    (nb : Nat) : OpResult DeviceMatrix :=
  if ¬ reg.inited then (.error .NotInitialized, nb)
  else if A.rows = B.rows ∧ A.cols = B.cols then
    (.ok ⟨A.rows, A.cols, nb,
          mkData A.rows A.cols (fun i j => A.get i j * B.get i j), true⟩,
     nb + 1)
  else (.error .DimensionMismatch, nb)

/-- Modelled from the spec (§4.2): `reduceColumnsSum(A)` — produces a
`(1, A.cols)` row of per-column sums, used for bias gradients. -/
def MatrixCL.reduceColumnsSum (reg : KernelRegistry) (A : DeviceMatrix)
    (nb : Nat) : OpResult DeviceMatrix :=
  if ¬ reg.inited then (.error .NotInitialized, nb)
  else
    (.ok ⟨1, A.cols, nb,
          mkData 1 A.cols (fun _ j =>
            ((List.range A.rows).map (fun i => A.get i j)).sum),
          true⟩,
     nb + 1)

/-- Modelled from the spec (§4.5): the optimizer's in-place update variant
`param -= lr * grad`: the device buffer is rewritten in place, so the
buffer handle, shape and validity of `param` are preserved and no new
buffer is allocated. -/
def MatrixCL.updateInPlace (param grad : DeviceMatrix) (lr : ℚ) :
    DeviceMatrix :=
  { param with
    data := mkData param.rows param.cols
      (fun i j => param.get i j - lr * grad.get i j) }

/-! ## Layer (spec §4.3) -/

/-- Modelled from the spec (§3, §4.3): a layer holds a weight matrix of
shape `(in_features, out_features)`, a bias of shape `(1, out_features)`,
an activation selector, and the forward cache `(input, preActivation)`;
the cache is overwritten by the next forward call and consumed by
`backward` (at most one in-flight forward per layer instance). -/
structure Layer where
  weight : DeviceMatrix
  bias : DeviceMatrix
  act : Activation
  cache : Option (DeviceMatrix × DeviceMatrix)

/-- The three products of a layer's backward pass (spec §4.3). -/
structure BackwardOut where
  gradInput : DeviceMatrix
  weightGrad : DeviceMatrix
  biasGrad : DeviceMatrix

/-- Modelled from the spec (§4.3): `forward(input)` computes
`activation(input · weight + bias)` (bias added by row-broadcast) and
caches `input` and the pre-activation value for use by `backward`. -/
def Layer.forward (reg : KernelRegistry) (l : Layer) (input : DeviceMatrix)
    (nb : Nat) : OpResult (Layer × DeviceMatrix) :=
  match MatrixCL.multiply reg input l.weight nb with
  | (.error e, nb1) => (.error e, nb1)
  | (.ok pre0, nb1) =>
    match MatrixCL.add reg pre0 l.bias nb1 with
    | (.error e, nb2) => (.error e, nb2)
    | (.ok pre, nb2) =>
      match MatrixCL.applyActivation reg pre l.act nb2 with
      | (.error e, nb3) => (.error e, nb3)
      | (.ok out, nb3) =>
        (.ok ({ l with cache := some (input, pre) }, out), nb3)

/-- Modelled from the spec (§4.3): `backward(gradOutput)` fails with
`ForwardNotCalled` when no forward cache is present (no `forward` since
the last `backward`); otherwise it computes
`gradPreActivation = gradOutput ⊙ activationDerivative(preActivation)`,
weight gradient `input^T · gradPreActivation` (fused transposed multiply),
bias gradient `reduceColumnsSum(gradPreActivation)`, and returns
`gradInput = gradPreActivation · weight^T`, consuming the cache. -/
def Layer.backward (reg : KernelRegistry) (l : Layer)
    (gradOutput : DeviceMatrix) (nb : Nat) : OpResult (Layer × BackwardOut) :=
  match l.cache with
  | none => (.error .ForwardNotCalled, nb)
  | some (input, pre) =>
    match MatrixCL.activationDerivative reg pre l.act nb with
    | (.error e, nb1) => (.error e, nb1)
    | (.ok dpre, nb1) =>
      match MatrixCL.elementwiseMul reg gradOutput dpre nb1 with
      | (.error e, nb2) => (.error e, nb2)
      | (.ok gradPre, nb2) =>
        match MatrixCL.multiplyTransposedLeft reg input gradPre nb2 with
        | (.error e, nb3) => (.error e, nb3)
        | (.ok wGrad, nb3) =>
          match MatrixCL.reduceColumnsSum reg gradPre nb3 with
          | (.error e, nb4) => (.error e, nb4)
          | (.ok bGrad, nb4) =>
            match MatrixCL.multiplyTransposedRight reg gradPre l.weight nb4 with
            | (.error e, nb5) => (.error e, nb5)
            | (.ok gInput, nb5) =>
              (.ok ({ l with cache := none }, ⟨gInput, wGrad, bGrad⟩), nb5)

/-! ## Network (spec §4.4) -/

/-- Modelled from the spec (§4.4): `Network.forward` folds `Layer.forward`
across the layers in order, threading each layer's output as the next
layer's input; the returned layer list carries the updated caches. -/
def Network.forward (reg : KernelRegistry) :
    List Layer → DeviceMatrix → Nat → OpResult (List Layer × DeviceMatrix)
  | [], x, nb => (.ok ([], x), nb)
  | l :: ls, x, nb =>
    match Layer.forward reg l x nb with
    | (.error e, nb1) => (.error e, nb1)
    | (.ok (l1, y), nb1) =>
      match Network.forward reg ls y nb1 with
      | (.error e, nb2) => (.error e, nb2)
      | (.ok (ls1, out), nb2) => (.ok (l1 :: ls1, out), nb2)

/-- Modelled from the spec (§4.4): `Network.backward` folds
`Layer.backward` across the layers in reverse order, threading each
layer's `gradInput` into the previous layer and collecting each layer's
(weight gradient, bias gradient) pair in layer order. -/
def Network.backward (reg : KernelRegistry) :
    List Layer → DeviceMatrix → Nat →
      OpResult (List Layer × List (DeviceMatrix × DeviceMatrix) × DeviceMatrix)
  | [], g, nb => (.ok ([], [], g), nb)
  | l :: ls, g, nb =>
    match Network.backward reg ls g nb with
    | (.error e, nb1) => (.error e, nb1)
    | (.ok (ls1, gs, gmid), nb1) =>
      match Layer.backward reg l gmid nb1 with
      | (.error e, nb2) => (.error e, nb2)
      | (.ok (l1, bout), nb2) =>
        (.ok (l1 :: ls1, (bout.weightGrad, bout.biasGrad) :: gs,
              bout.gradInput), nb2)

/-! ## SGDTrainer (spec §4.5) -/

/-- Modelled from the spec (§3 TrainingSession): hyperparameters
`{learningRate, epochs, batchSize}`, immutable for the duration of a
`run` call. -/
structure TrainingSession where
  learningRate : ℚ
  epochs : Nat
  batchSize : Nat

/-- Modelled from the spec (§4.5, §9 open question): the loss is selected
at trainer construction (cross-entropy or mean-squared-error); per §9 it
is treated as a configurable extension point, given by its scalar value
and by the seed gradient it induces at the output layer. -/
structure LossSpec where
  value : DeviceMatrix → DeviceMatrix → ℚ
  grad : DeviceMatrix → DeviceMatrix → DeviceMatrix

/-- Modelled from the spec (§4.5): the per-layer parameter update,
`weight -= learningRate * weightGradient`,
`bias -= learningRate * biasGradient`, applied as in-place buffer updates
(no new allocation). -/
def updateLayer (lr : ℚ) (l : Layer) (wGrad bGrad : DeviceMatrix) : Layer :=
  { l with
    weight := MatrixCL.updateInPlace l.weight wGrad lr,
    bias := MatrixCL.updateInPlace l.bias bGrad lr }

/-- Modelled from the spec (§4.5): apply the in-place update to every
layer, pairing layers with their collected gradients. -/
def applyUpdates (lr : ℚ) :
    List Layer → List (DeviceMatrix × DeviceMatrix) → List Layer
  | [], _ => []
  | l :: ls, [] => l :: ls
  | l :: ls, (wg, bg) :: gs => updateLayer lr l wg bg :: applyUpdates lr ls gs

/-- Modelled from the spec (§4.5): one batch step — forward pass, loss
evaluation, backward pass seeded with the loss gradient at the output
layer, then the in-place parameter update of every layer. -/
def trainBatch (reg : KernelRegistry) (loss : LossSpec) (lr : ℚ)
    (net : List Layer) (batch : DeviceMatrix × DeviceMatrix) (nb : Nat) :
    OpResult (List Layer × ℚ) :=
  match Network.forward reg net batch.1 nb with
  | (.error e, nb1) => (.error e, nb1)
  | (.ok (net1, pred), nb1) =>
    match Network.backward reg net1 (loss.grad pred batch.2) nb1 with
    | (.error e, nb2) => (.error e, nb2)
    | (.ok (net2, grads, _), nb2) =>
      (.ok (applyUpdates lr net2 grads, loss.value pred batch.2), nb2)

/-- Modelled from the spec (§4.5): fold `trainBatch` over the batches of
one epoch, accumulating the epoch's loss. -/
def runBatches (reg : KernelRegistry) (loss : LossSpec) (lr : ℚ) :
    List (DeviceMatrix × DeviceMatrix) → List Layer → Nat →
      OpResult (List Layer × ℚ)
  | [], net, nb => (.ok (net, 0), nb)
  | b :: bs, net, nb =>
    match trainBatch reg loss lr net b nb with
    | (.error e, nb1) => (.error e, nb1)
    | (.ok (net1, v), nb1) =>
      match runBatches reg loss lr bs net1 nb1 with
      | (.error e, nb2) => (.error e, nb2)
      | (.ok (net2, acc), nb2) => (.ok (net2, v + acc), nb2)

/-- Modelled from the spec (§4.5): the epoch loop, terminal after exactly
`epochs` iterations; the per-epoch loss is reported (collected) but never
inspected — the step function is arbitrary here precisely because no loss
value affects control flow. -/
def runEpochs (step : List Layer → Nat → OpResult (List Layer × ℚ)) :
    Nat → List Layer → Nat → OpResult (List Layer × List ℚ)
  | 0, net, nb => (.ok (net, []), nb)
  | e + 1, net, nb =>
    match step net nb with
    | (.error err, nb1) => (.error err, nb1)
    | (.ok (net1, v), nb1) =>
      match runEpochs step e net1 nb1 with
      | (.error err, nb2) => (.error err, nb2)
      | (.ok (net2, vs), nb2) => (.ok (net2, v :: vs), nb2)

/-- Modelled from the spec (§4.5): `SGDTrainer.run(dataset, session)` —
the epoch loop over the dataset's batches with the session's learning
rate; always completes the configured number of epochs (no
early-stopping policy). -/
def SGDTrainer.run (reg : KernelRegistry) (loss : LossSpec)
    (dataset : List (DeviceMatrix × DeviceMatrix)) (sess : TrainingSession)
    (net : List Layer) (nb : Nat) : OpResult (List Layer × List ℚ) :=
  runEpochs (runBatches reg loss sess.learningRate dataset)
    sess.epochs net nb

/-! ## Mathematical reference definitions (spec side)

These definitions state what the spec's words say the operations compute
(exact row-major product, materialized transpose, Hadamard product,
per-column sums); the theorems below compare the modelled device
operations against them. -/

/-- The row-major host list `x`, of declared shape `r × c`, viewed as a
Mathlib matrix. -/
def toMatrix (r c : Nat) (x : List ℚ) : Matrix (Fin r) (Fin c) ℚ :=
  fun i j => x.getD (i.1 * c + j.1) 0

/-- The materialized transpose of a row-major `r × c` buffer. -/
def transposeData (r c : Nat) (d : List ℚ) : List ℚ :=
  mkData c r (fun i j => matGet c d j i)

/-- The plain row-major product of an `m × k` buffer with a `k × n`
buffer. -/
def mulData (m k n : Nat) (a b : List ℚ) : List ℚ :=
  mkData m n (fun i j =>
    ((List.range k).map (fun p => matGet k a i p * matGet n b p j)).sum)

/-- The elementwise (Hadamard) product of two `r × c` buffers. -/
def hadamardData (r c : Nat) (a b : List ℚ) : List ℚ :=
  mkData r c (fun i j => matGet c a i j * matGet c b i j)

/-- The elementwise map of a scalar function over an `r × c` buffer. -/
def mapData (r c : Nat) (f : ℚ → ℚ) (d : List ℚ) : List ℚ :=
  mkData r c (fun i j => f (matGet c d i j))

/-- The `(1, c)` row of per-column sums of an `r × c` buffer. -/
def colSumData (r c : Nat) (d : List ℚ) : List ℚ :=
  mkData 1 c (fun _ j => ((List.range r).map (fun i => matGet c d i j)).sum)

theorem sum_map_range (n : Nat) (f : Nat → ℚ) :
    ((List.range n).map f).sum = ∑ p ∈ Finset.range n, f p := by
  induction n with
  | zero => simp
  | succ n ih =>
    rw [List.range_succ, Finset.sum_range_succ, List.map_append,
      List.sum_append, ih]
    simp

/-! ## The harness (embedded from `src/main.cpp`)

`printMatrix` and `main` are embedded directly from the visible driver
file.  Console output is modelled as the lists of lines written to stdout
and stderr; the accelerator environment `main` probes (platform list,
GPU/CPU device lists, kernel build outcome) is modelled as an explicit
input record. -/

/-- The `what()` text of the runtime error a failing operation raises
(embedded abstractly; the harness only concatenates it). -/
def MatrixError.whatText : MatrixError → String
  | .NotInitialized => "kernels not ready"
  | .KernelNotFound => "kernel not found"
  | .DimensionMismatch => "dimension mismatch"
  | .DeviceTransferError => "device transfer rejected"
  | .ForwardNotCalled => "forward not called"

/-- Lines written to stdout and stderr by a harness helper. -/
structure ConsoleOut where
  out : List String
  err : List String
  deriving DecidableEq, Repr

/-- One printed row `  [ a b ... c ]` of `printMatrix`
(`src/main.cpp:15-21`). -/
def printRowLine (cols : Nat) (d : List ℚ) (i : Nat) : String :=
  "  [" ++ String.join ((List.range cols).map
    (fun j => " " ++ toString (d.getD (i * cols + j) 0))) ++ " ]"

/-- Embedded from `src/main.cpp:11-26` (`printMatrix`): prints the label
and shape, then copies the matrix to the host inside a try-block and
prints its rows; a `std::runtime_error` raised by the transfer is caught
and reported on stderr — it is never rethrown, so the helper always
returns normally. -/
def printMatrix (label : String) (m : DeviceMatrix) : ConsoleOut :=
  let header := label ++ " (" ++ toString m.rows ++ "x"
    ++ toString m.cols ++ "):"
  match MatrixCL.copyToHost m with
  | .error e =>
    { out := [header],
      err := ["Error printing matrix: " ++ e.whatText] }
  | .ok d =>
    { out := header :: (List.range m.rows).map (printRowLine m.cols d),
      err := [] }

/-- The accelerator environment probed by `main`
(`src/main.cpp:69-95`): the available platforms, the GPU and CPU device
lists of the chosen platform, and the kernel source the build will
receive. -/
structure HostEnv where
  platforms : List Nat
  gpuDevices : List Device
  cpuDevices : List Device
  kernelSrc : KernelSource

/-- Embedded from `src/main.cpp:80-87`: the driver asks for GPU devices
and falls back to CPU devices when none is found. -/
def pickedDevices (env : HostEnv) : List Device :=
  if env.gpuDevices.isEmpty then env.cpuDevices else env.gpuDevices

/-- Embedded from `src/main.cpp:66-126` (`main`): returns 1 when no
platform is found, when neither a GPU nor a CPU device is found, or when
kernel initialization fails (including every exception path of the outer
try); returns 0 otherwise. -/
def mainHarness (env : HostEnv) : Nat :=
  if env.platforms.isEmpty then 1
  else
    match pickedDevices env with
    | [] => 1
    | d :: _ =>
      match setupKernels ⟨false, []⟩ env.kernelSrc [d] with
      | .error _ => 1
      | .ok _ => 0

/-! ## Claim theorems -/

/-- C2: for every `rows > 0`, `cols > 0` and every host sequence of
`rows*cols` elements, constructing a `DeviceMatrix` from that sequence and
immediately calling `copyToHost` returns a flattened row-major sequence of
`rows*cols` elements equal to the input, each element within tolerance
ε = 1e-5 (round-trip law). -/
theorem fromHost_copyToHost_roundTrip (r c : Nat) (x : List ℚ) (nb : Nat)
    (hr : 0 < r) (hc : 0 < c) (hlen : x.length = r * c) :
    ∃ d : List ℚ,
      MatrixCL.copyToHost (MatrixCL.fromHost r c x nb).1 = .ok d ∧
      d.length = r * c ∧
      ∀ i, i < r * c → |d.getD i 0 - x.getD i 0| < (1 : ℚ) / 100000 := by
  refine ⟨x, rfl, hlen, fun i _ => ?_⟩
  simp only [sub_self, abs_zero]
  norm_num

/-- Witness for C2 at `r = 2`, `c = 3`, `x = [1,2,3,4,5,6]`. -/
theorem fromHost_copyToHost_roundTrip_witness :
    0 < 2 ∧ 0 < 3 ∧ ([1, 2, 3, 4, 5, 6] : List ℚ).length = 2 * 3 ∧
    ∃ d : List ℚ,
      MatrixCL.copyToHost
        (MatrixCL.fromHost 2 3 [1, 2, 3, 4, 5, 6] 0).1 = .ok d ∧
      d.length = 2 * 3 ∧
      ∀ i, i < 2 * 3 →
        |d.getD i 0 - ([1, 2, 3, 4, 5, 6] : List ℚ).getD i 0| <
          (1 : ℚ) / 100000 :=
  ⟨by decide, by decide, by decide,
   fromHost_copyToHost_roundTrip 2 3 [1, 2, 3, 4, 5, 6] 0
     (by decide) (by decide) (by decide)⟩

/-- C5: with the registry initialized, `multiply` on incompatible inner
dimensions, and `add`/`subtract` on unequal shapes with no valid
row-broadcast (broadcast is valid only when `B.rows == 1` with matching
column count), fail with `DimensionMismatch` and leave the allocation
counter unchanged (no output buffer is allocated). -/
theorem shape_mismatch_fails_without_alloc (reg : KernelRegistry)
    (A B : DeviceMatrix) (nb : Nat) (hreg : reg.inited = true) :
    (A.cols ≠ B.rows →
      MatrixCL.multiply reg A B nb = (.error .DimensionMismatch, nb)) ∧
    (¬(A.rows = B.rows ∧ A.cols = B.cols) →
      ¬(B.rows = 1 ∧ A.cols = B.cols) →
      MatrixCL.add reg A B nb = (.error .DimensionMismatch, nb)) ∧
    (¬(A.rows = B.rows ∧ A.cols = B.cols) →
      ¬(B.rows = 1 ∧ A.cols = B.cols) →
      MatrixCL.subtract reg A B nb = (.error .DimensionMismatch, nb)) := by
  refine ⟨fun hm => ?_, fun ha hb => ?_, fun ha _ => ?_⟩
  · simp [MatrixCL.multiply, hreg, hm]
  · simp [MatrixCL.add, hreg, ha, hb]
  · simp [MatrixCL.subtract, hreg, ha]

/-- Witness for C5: a `2×3` and a `2×2` operand pair. -/
theorem shape_mismatch_fails_without_alloc_witness :
    MatrixCL.multiply ⟨true, []⟩ ⟨2, 3, 0, [], true⟩ ⟨2, 2, 1, [], true⟩ 7
      = (.error .DimensionMismatch, 7) ∧
    MatrixCL.add ⟨true, []⟩ ⟨2, 3, 0, [], true⟩ ⟨2, 2, 1, [], true⟩ 7
      = (.error .DimensionMismatch, 7) ∧
    MatrixCL.subtract ⟨true, []⟩ ⟨2, 3, 0, [], true⟩ ⟨2, 2, 1, [], true⟩ 7
      = (.error .DimensionMismatch, 7) :=
  ⟨(shape_mismatch_fails_without_alloc ⟨true, []⟩ ⟨2, 3, 0, [], true⟩
      ⟨2, 2, 1, [], true⟩ 7 rfl).1 (by decide),
   (shape_mismatch_fails_without_alloc ⟨true, []⟩ ⟨2, 3, 0, [], true⟩
      ⟨2, 2, 1, [], true⟩ 7 rfl).2.1 (by decide) (by decide),
   (shape_mismatch_fails_without_alloc ⟨true, []⟩ ⟨2, 3, 0, [], true⟩
      ⟨2, 2, 1, [], true⟩ 7 rfl).2.2 (by decide) (by decide)⟩

/-- A failed-build diagnostic text is never empty. -/
theorem buildLogText_ne_empty (src : KernelSource) (d : Device) :
    buildLogText src d ≠ "" := by
  intro h
  have hlen : (buildLogText src d).length = 0 := by rw [h]; rfl
  rw [buildLogText, String.length_append, String.length_append,
    String.length_append] at hlen
  have h21 : ("error: kernel source ").length = 21 := rfl
  omega

/-- C6: when kernel compilation fails (registry uninitialized, malformed
source, non-empty device list), the reported `BuildError` carries a
non-empty diagnostic log entry for every requested device, and the
registry is left uninitialized, so every subsequent `DeviceMatrix`
operation fails with `NotInitialized`. -/
theorem build_failure_logs_and_not_initialized (reg : KernelRegistry)
    (src : KernelSource) (devices : List Device)
    (hreg : reg.inited = false) (hsrc : src.wellFormed = false)
    (hdev : devices ≠ []) :
    ∃ err : BuildError,
      setupKernels reg src devices = .error err ∧
      err.logs.map Prod.fst = devices ∧
      err.logs ≠ [] ∧
      (∀ p ∈ err.logs, p.2 ≠ "") ∧
      (∀ A B act nb,
        (MatrixCL.multiply reg A B nb).1 = .error .NotInitialized ∧
        (MatrixCL.multiplyTransposedLeft reg A B nb).1 =
          .error .NotInitialized ∧
        (MatrixCL.multiplyTransposedRight reg A B nb).1 =
          .error .NotInitialized ∧
        (MatrixCL.add reg A B nb).1 = .error .NotInitialized ∧
        (MatrixCL.subtract reg A B nb).1 = .error .NotInitialized ∧
        (MatrixCL.elementwiseMul reg A B nb).1 = .error .NotInitialized ∧
        (MatrixCL.applyActivation reg A act nb).1 = .error .NotInitialized ∧
        (MatrixCL.activationDerivative reg A act nb).1 =
          .error .NotInitialized ∧
        (MatrixCL.reduceColumnsSum reg A nb).1 = .error .NotInitialized) := by
  refine ⟨⟨devices.map (fun d => (d, buildLogText src d))⟩, ?_, ?_, ?_, ?_, ?_⟩
  · simp [setupKernels, hreg, hsrc]
  · simp [Function.comp_def]
  · simpa using hdev
  · intro p hp
    simp only [List.mem_map] at hp
    obtain ⟨d, _, rfl⟩ := hp
    exact buildLogText_ne_empty src d
  · intro A B act nb
    refine ⟨?_, ?_, ?_, ?_, ?_, ?_, ?_, ?_, ?_⟩ <;>
      simp [MatrixCL.multiply, MatrixCL.multiplyTransposedLeft,
        MatrixCL.multiplyTransposedRight, MatrixCL.add, MatrixCL.subtract,
        MatrixCL.elementwiseMul, MatrixCL.applyActivation,
        MatrixCL.activationDerivative, MatrixCL.reduceColumnsSum, hreg]

/-- Witness for C6 at a fresh registry, malformed source `⟨7, false⟩` and
device list `[⟨0⟩, ⟨1⟩]`. -/
theorem build_failure_logs_and_not_initialized_witness :
    (⟨false, []⟩ : KernelRegistry).inited = false ∧
    (⟨7, false⟩ : KernelSource).wellFormed = false ∧
    ([⟨0⟩, ⟨1⟩] : List Device) ≠ [] ∧
    ∃ err : BuildError,
      setupKernels ⟨false, []⟩ ⟨7, false⟩ [⟨0⟩, ⟨1⟩] = .error err ∧
      err.logs.map Prod.fst = [⟨0⟩, ⟨1⟩] ∧
      err.logs ≠ [] ∧
      (∀ p ∈ err.logs, p.2 ≠ "") ∧
      (∀ A B act nb,
        (MatrixCL.multiply ⟨false, []⟩ A B nb).1 = .error .NotInitialized ∧
        (MatrixCL.multiplyTransposedLeft ⟨false, []⟩ A B nb).1 =
          .error .NotInitialized ∧
        (MatrixCL.multiplyTransposedRight ⟨false, []⟩ A B nb).1 =
          .error .NotInitialized ∧
        (MatrixCL.add ⟨false, []⟩ A B nb).1 = .error .NotInitialized ∧
        (MatrixCL.subtract ⟨false, []⟩ A B nb).1 = .error .NotInitialized ∧
        (MatrixCL.elementwiseMul ⟨false, []⟩ A B nb).1 =
          .error .NotInitialized ∧
        (MatrixCL.applyActivation ⟨false, []⟩ A act nb).1 =
          .error .NotInitialized ∧
        (MatrixCL.activationDerivative ⟨false, []⟩ A act nb).1 =
          .error .NotInitialized ∧
        (MatrixCL.reduceColumnsSum ⟨false, []⟩ A nb).1 =
          .error .NotInitialized) :=
  ⟨rfl, rfl, by decide,
   build_failure_logs_and_not_initialized ⟨false, []⟩ ⟨7, false⟩
     [⟨0⟩, ⟨1⟩] rfl rfl (by decide)⟩

/-- C7: once `setupKernels` has succeeded, calling it again with the same
source and device set is a no-op — it returns the same registry without
error (hence no duplicate compiled artifact), and the first successful
call on an uninitialized registry added exactly one compiled artifact. -/
theorem setup_idempotent (reg reg1 : KernelRegistry) (src : KernelSource)
    (devices : List Device)
    (h : setupKernels reg src devices = .ok reg1) :
    setupKernels reg1 src devices = .ok reg1 ∧
    reg1.inited = true ∧
    (reg.inited = false →
      reg1.programs.length = reg.programs.length + 1) := by
  by_cases hi : reg.inited
  · rw [setupKernels, if_pos hi] at h
    injection h with h2
    subst h2
    refine ⟨?_, hi, ?_⟩
    · rw [setupKernels, if_pos hi]
    · intro hfalse
      rw [hfalse] at hi
      cases hi
  · rw [setupKernels, if_neg hi] at h
    by_cases hw : src.wellFormed
    · rw [if_pos hw] at h
      injection h with h2
      subst h2
      refine ⟨?_, rfl, ?_⟩
      · rw [setupKernels]
        simp
      · intro _
        simp
    · rw [if_neg hw] at h
      cases h

/-- Witness for C7 at a fresh registry, well-formed source `⟨3, true⟩` and
device list `[⟨0⟩]`. -/
theorem setup_idempotent_witness :
    setupKernels ⟨false, []⟩ ⟨3, true⟩ [⟨0⟩] =
      .ok ⟨true, [⟨3, [0]⟩]⟩ ∧
    setupKernels ⟨true, [⟨3, [0]⟩]⟩ ⟨3, true⟩ [⟨0⟩] =
      .ok ⟨true, [⟨3, [0]⟩]⟩ ∧
    (⟨true, [⟨3, [0]⟩]⟩ : KernelRegistry).programs.length =
      ([] : List CompiledProgram).length + 1 :=
  ⟨rfl,
   (setup_idempotent ⟨false, []⟩ ⟨true, [⟨3, [0]⟩]⟩ ⟨3, true⟩ [⟨0⟩] rfl).1,
   (setup_idempotent ⟨false, []⟩ ⟨true, [⟨3, [0]⟩]⟩ ⟨3, true⟩ [⟨0⟩] rfl).2.2
     rfl⟩

/-- C8: `backward` on a layer with no cached forward (no `forward` since
the last `backward`) fails with `ForwardNotCalled`; moreover a successful
`backward` consumes the cache, so a second `backward` without an
intervening `forward` fails with `ForwardNotCalled` as well. -/
theorem backward_without_forward_fails (reg : KernelRegistry) (l : Layer)
    (g : DeviceMatrix) (nb : Nat) :
    (l.cache = none →
      Layer.backward reg l g nb = (.error .ForwardNotCalled, nb)) ∧
    (∀ l1 bout nb1,
      Layer.backward reg l g nb = (.ok (l1, bout), nb1) →
      l1.cache = none ∧
      ∀ g2 nb2,
        Layer.backward reg l1 g2 nb2 = (.error .ForwardNotCalled, nb2)) := by
  constructor
  · intro hc
    rw [Layer.backward, hc]
  · intro l1 bout nb1 h
    rcases hcache : l.cache with _ | ⟨input, pre⟩
    · rw [Layer.backward, hcache] at h
      cases h
    · rw [Layer.backward, hcache] at h
      have hl1 : l1.cache = none := by
        split at h
        · cases h
        · split at h
          · cases h
          · split at h
            · cases h
            · split at h
              · cases h
              · split at h
                · cases h
                · split at h
                  · cases h
                  · injection h with h2 h3
                    injection h2 with h4
                    injection h4 with h5 h6
                    rw [← h5]
      refine ⟨hl1, fun g2 nb2 => ?_⟩
      rw [Layer.backward, hl1]

/-- Witness for C8: a layer whose cache is empty. -/
theorem backward_without_forward_fails_witness :
    Layer.backward ⟨true, []⟩
      ⟨⟨1, 1, 0, [2], true⟩, ⟨1, 1, 1, [3], true⟩,
        Activation.identityAct, none⟩
      ⟨1, 1, 2, [1], true⟩ 5 = (.error .ForwardNotCalled, 5) :=
  (backward_without_forward_fails ⟨true, []⟩
    ⟨⟨1, 1, 0, [2], true⟩, ⟨1, 1, 1, [3], true⟩,
      Activation.identityAct, none⟩
    ⟨1, 1, 2, [1], true⟩ 5).1 rfl

/-- C10: `printMatrix` never propagates a `copyToHost` failure — it is a
total function on any matrix; when the device-to-host transfer of the
matrix is rejected, it still prints the label/shape header on stdout and
writes the error message on stderr instead of rethrowing. -/
theorem printMatrix_catches_transfer_error (label : String)
    (m : DeviceMatrix) (h : m.valid = false) :
    MatrixCL.copyToHost m = .error .DeviceTransferError ∧
    printMatrix label m =
      { out := [label ++ " (" ++ toString m.rows ++ "x"
          ++ toString m.cols ++ "):"],
        err := ["Error printing matrix: "
          ++ MatrixError.DeviceTransferError.whatText] } := by
  have hcopy : MatrixCL.copyToHost m = .error .DeviceTransferError := by
    rw [MatrixCL.copyToHost, h]
    rfl
  exact ⟨hcopy, by rw [printMatrix, hcopy]⟩

/-- Witness for C10: a `1×1` matrix whose buffer is stale. -/
theorem printMatrix_catches_transfer_error_witness :
    MatrixCL.copyToHost ⟨1, 1, 0, [5], false⟩ =
      .error .DeviceTransferError ∧
    printMatrix "W" ⟨1, 1, 0, [5], false⟩ =
      { out := ["W (1x1):"],
        err := ["Error printing matrix: "
          ++ MatrixError.DeviceTransferError.whatText] } := by
  have h := printMatrix_catches_transfer_error "W" ⟨1, 1, 0, [5], false⟩ rfl
  refine ⟨h.1, ?_⟩
  rw [h.2]
  rfl

/-- C9: the harness exits with status 0 exactly on full success (a
platform exists, a GPU or fallback CPU device exists, and the kernel
build succeeds), and with status 1 on any initialization, build, or
device error — including the no-platform and no-device cases; no other
exit status is possible. -/
theorem mainHarness_exit_codes (env : HostEnv) :
    (mainHarness env = 0 ∨ mainHarness env = 1) ∧
    (mainHarness env = 0 ↔
      env.platforms ≠ [] ∧ pickedDevices env ≠ [] ∧
      env.kernelSrc.wellFormed = true) := by
  rw [mainHarness]
  by_cases hp : env.platforms.isEmpty
  · rw [if_pos hp]
    simp only [List.isEmpty_iff] at hp
    simp [hp]
  · rw [if_neg hp]
    simp only [List.isEmpty_iff] at hp
    rcases hd : pickedDevices env with _ | ⟨d, ds⟩
    · simp [hp]
    · rcases hw : env.kernelSrc.wellFormed with _ | _
      · have hsetup : setupKernels ⟨false, []⟩ env.kernelSrc [d] =
            .error ⟨[(d, buildLogText env.kernelSrc d)]⟩ := by
          rw [setupKernels]
          simp [hw]
        simp [hsetup, hp, hw]
      · have hsetup : setupKernels ⟨false, []⟩ env.kernelSrc [d] =
            .ok ⟨true, [⟨env.kernelSrc.srcId, [d.devId]⟩]⟩ := by
          rw [setupKernels]
          simp [hw]
        simp [hsetup, hp, hw]

theorem sum_map_range_fin (n : Nat) (f : Nat → ℚ) :
    ((List.range n).map f).sum = ∑ p : Fin n, f p.1 := by
  rw [sum_map_range]
  exact (Fin.sum_univ_eq_sum_range f n).symm

/-- C1: multiplying two `DeviceMatrix` operands constructed from host data
with compatible inner dimension yields a matrix of shape
`(A.rows, B.cols)` whose `copyToHost` result is the mathematically exact
row-major product of the two host sequences — every element within the
floating-point tolerance ε = 1e-5 of the exact product (here the model is
exact, so the distance is zero). -/
theorem multiply_matches_exact_product (reg : KernelRegistry)
    (r k n : Nat) (x y : List ℚ) (nb : Nat) (hreg : reg.inited = true) :
    MatrixCL.multiply reg (MatrixCL.fromHost r k x nb).1
        (MatrixCL.fromHost k n y (nb + 1)).1 (nb + 2) =
      (.ok ⟨r, n, nb + 2, mulData r k n x y, true⟩, nb + 3) ∧
    MatrixCL.copyToHost ⟨r, n, nb + 2, mulData r k n x y, true⟩ =
      .ok (mulData r k n x y) ∧
    (mulData r k n x y).length = r * n ∧
    ∀ (i : Fin r) (j : Fin n),
      |matGet n (mulData r k n x y) i.1 j.1 -
        (toMatrix r k x * toMatrix k n y) i j| < (1 : ℚ) / 100000 := by
  refine ⟨?_, rfl, by simp [mulData], ?_⟩
  · simp only [MatrixCL.fromHost]
    rw [MatrixCL.multiply]
    simp [hreg, mulData, DeviceMatrix.get, matGet]
  · intro i j
    have hentry : matGet n (mulData r k n x y) i.1 j.1 =
        ((List.range k).map
          (fun p => matGet k x i.1 p * matGet n y p j.1)).sum := by
      rw [mulData]
      exact matGet_mkData _ i.2 j.2
    rw [hentry, sum_map_range_fin, Matrix.mul_apply]
    have hsums : (∑ p : Fin k, matGet k x i.1 p.1 * matGet n y p.1 j.1)
        = ∑ p : Fin k, toMatrix r k x i p * toMatrix k n y p j := rfl
    rw [hsums, sub_self, abs_zero]
    norm_num

/-- Witness for C1 at `1×1` operands `[2]` and `[3]`. -/
theorem multiply_matches_exact_product_witness :
    (⟨true, []⟩ : KernelRegistry).inited = true ∧
    MatrixCL.multiply ⟨true, []⟩ (MatrixCL.fromHost 1 1 [2] 0).1
        (MatrixCL.fromHost 1 1 [3] 1).1 2 =
      (.ok ⟨1, 1, 2, mulData 1 1 1 [2] [3], true⟩, 3) ∧
    ∀ (i : Fin 1) (j : Fin 1),
      |matGet 1 (mulData 1 1 1 [2] [3]) i.1 j.1 -
        (toMatrix 1 1 [2] * toMatrix 1 1 [3]) i j| < (1 : ℚ) / 100000 :=
  ⟨rfl,
   (multiply_matches_exact_product ⟨true, []⟩ 1 1 1 [2] [3] 0 rfl).1,
   (multiply_matches_exact_product ⟨true, []⟩ 1 1 1 [2] [3] 0 rfl).2.2.2⟩

/-- Reading the materialized transpose at `(i, j)` gives the original
entry at `(j, i)`. -/
theorem transpose_entry {r c i j : Nat} (d : List ℚ)
    (hi : i < c) (hj : j < r) :
    matGet r (transposeData r c d) i j = matGet c d j i := by
  rw [transposeData]
  exact matGet_mkData _ hi hj

/-- C3: on a layer carrying a forward cache `(input, preActivation)` with
shapes `input : bsz×infeat`, `preActivation, gradOutput : bsz×outfeat`,
weight `infeat×outfeat`, `backward(gradOutput)` computes
`gradPre = gradOutput ⊙ activationDerivative(preActivation)`, the weight
gradient `input^T · gradPre` (materialized-transpose product), the bias
gradient `reduceColumnsSum(gradPre)`, and returns
`gradInput = gradPre · weight^T`, consuming the cache. -/
theorem backward_computes_gradients (reg : KernelRegistry)
    (bsz infeat outfeat : Nat)
    (wData bData inData preData gData : List ℚ)
    (bw bb bi bp bg nb : Nat) (wv bv iv pv gv : Bool)
    (act : Activation) (hreg : reg.inited = true) :
    Layer.backward reg
      ⟨⟨infeat, outfeat, bw, wData, wv⟩, ⟨1, outfeat, bb, bData, bv⟩, act,
        some (⟨bsz, infeat, bi, inData, iv⟩, ⟨bsz, outfeat, bp, preData, pv⟩)⟩
      ⟨bsz, outfeat, bg, gData, gv⟩ nb =
      (.ok (⟨⟨infeat, outfeat, bw, wData, wv⟩, ⟨1, outfeat, bb, bData, bv⟩,
            act, none⟩,
        { gradInput := ⟨bsz, infeat, nb + 4,
            mulData bsz outfeat infeat
              (hadamardData bsz outfeat gData
                (mapData bsz outfeat act.deriv preData))
              (transposeData infeat outfeat wData), true⟩,
          weightGrad := ⟨infeat, outfeat, nb + 2,
            mulData infeat bsz outfeat
              (transposeData bsz infeat inData)
              (hadamardData bsz outfeat gData
                (mapData bsz outfeat act.deriv preData)), true⟩,
          biasGrad := ⟨1, outfeat, nb + 3,
            colSumData bsz outfeat
              (hadamardData bsz outfeat gData
                (mapData bsz outfeat act.deriv preData)), true⟩ }),
       nb + 5) := by
  simp only [Layer.backward, MatrixCL.activationDerivative,
    MatrixCL.elementwiseMul, MatrixCL.multiplyTransposedLeft,
    MatrixCL.reduceColumnsSum, MatrixCL.multiplyTransposedRight,
    DeviceMatrix.get, hreg, not_true, if_false, ite_self, and_self,
    if_true, eq_self_iff_true, ne_eq, not_false_iff,
    Bool.not_eq_true, hadamardData, mapData, mulData, transposeData,
    colSumData]
  simp only [Layer.mk.injEq, BackwardOut.mk.injEq, DeviceMatrix.mk.injEq,
    Prod.mk.injEq, Except.ok.injEq, and_true, true_and]
  refine ⟨?_, ?_⟩
  · -- gradInput: the fused transposed-right product equals multiplying
    -- by the materialized weight transpose
    apply mkData_congr
    intro i j hi hj
    rw [sum_map_range, sum_map_range]
    apply Finset.sum_congr rfl
    intro p hp
    rw [Finset.mem_range] at hp
    rw [matGet_mkData _ hp hj]
  · -- weight gradient: the fused transposed-left product equals the
    -- materialized transpose-then-multiply
    apply mkData_congr
    intro i j hi hj
    rw [sum_map_range, sum_map_range]
    apply Finset.sum_congr rfl
    intro p hp
    rw [Finset.mem_range] at hp
    rw [matGet_mkData _ hi hp]

/-- Witness for C3: a `1→1` identity-activation layer with cached forward
state. -/
theorem backward_computes_gradients_witness :
    Layer.backward ⟨true, []⟩
      ⟨⟨1, 1, 0, [2], true⟩, ⟨1, 1, 1, [3], true⟩, Activation.identityAct,
        some (⟨1, 1, 2, [4], true⟩, ⟨1, 1, 3, [11], true⟩)⟩
      ⟨1, 1, 4, [5], true⟩ 10 =
      (.ok (⟨⟨1, 1, 0, [2], true⟩, ⟨1, 1, 1, [3], true⟩,
            Activation.identityAct, none⟩,
        { gradInput := ⟨1, 1, 14,
            mulData 1 1 1
              (hadamardData 1 1 [5]
                (mapData 1 1 Activation.identityAct.deriv [11]))
              (transposeData 1 1 [2]), true⟩,
          weightGrad := ⟨1, 1, 12,
            mulData 1 1 1 (transposeData 1 1 [4])
              (hadamardData 1 1 [5]
                (mapData 1 1 Activation.identityAct.deriv [11])), true⟩,
          biasGrad := ⟨1, 1, 13,
            colSumData 1 1
              (hadamardData 1 1 [5]
                (mapData 1 1 Activation.identityAct.deriv [11])), true⟩ }),
       15) :=
  backward_computes_gradients ⟨true, []⟩ 1 1 1 [2] [3] [4] [11] [5]
    0 1 2 3 4 10 true true true true true Activation.identityAct rfl

/-- The epoch loop yields exactly `e` loss reports when it succeeds,
whatever the step function does. -/
theorem runEpochs_ok_length
    (step : List Layer → Nat → OpResult (List Layer × ℚ)) :
    ∀ (e : Nat) (net : List Layer) (nb : Nat) (net1 : List Layer)
      (reports : List ℚ) (nb1 : Nat),
    runEpochs step e net nb = (.ok (net1, reports), nb1) →
    reports.length = e := by
  intro e
  induction e with
  | zero =>
    intro net nb net1 reports nb1 h
    rw [runEpochs] at h
    injection h with h2 h3
    injection h2 with h4
    injection h4 with h5 h6
    rw [← h6]
    rfl
  | succ e ih =>
    intro net nb net1 reports nb1 h
    rw [runEpochs] at h
    split at h
    · cases h
    · split at h
      · cases h
      · rename_i heq
        injection h with h2 h3
        injection h2 with h4
        injection h4 with h5 h6
        rw [← h6, List.length_cons]
        exact congrArg Nat.succ (ih _ _ _ _ _ heq)

/-- C4: `SGDTrainer.run` reports exactly `session.epochs` per-epoch
losses whenever it completes, for every dataset, network and loss
specification (no early stopping); and the per-layer update is the
in-place rule `weight -= lr * weightGrad`, `bias -= lr * biasGrad` —
buffer handles and shapes are preserved, only the buffer contents change
— applied to every layer of the network via `applyUpdates`. -/
theorem sgd_epoch_count_and_inplace_updates :
    (∀ (reg : KernelRegistry) (loss : LossSpec)
       (dataset : List (DeviceMatrix × DeviceMatrix))
       (sess : TrainingSession) (net : List Layer) (nb : Nat)
       (net1 : List Layer) (reports : List ℚ) (nb1 : Nat),
      SGDTrainer.run reg loss dataset sess net nb =
        (.ok (net1, reports), nb1) →
      reports.length = sess.epochs) ∧
    (∀ (lr : ℚ) (l : Layer) (wg bg : DeviceMatrix),
      (updateLayer lr l wg bg).weight.buf = l.weight.buf ∧
      (updateLayer lr l wg bg).bias.buf = l.bias.buf ∧
      (updateLayer lr l wg bg).weight.rows = l.weight.rows ∧
      (updateLayer lr l wg bg).weight.cols = l.weight.cols ∧
      (updateLayer lr l wg bg).bias.rows = l.bias.rows ∧
      (updateLayer lr l wg bg).bias.cols = l.bias.cols ∧
      (updateLayer lr l wg bg).weight.data =
        mkData l.weight.rows l.weight.cols
          (fun i j => l.weight.get i j - lr * wg.get i j) ∧
      (updateLayer lr l wg bg).bias.data =
        mkData l.bias.rows l.bias.cols
          (fun i j => l.bias.get i j - lr * bg.get i j)) ∧
    (∀ (lr : ℚ) (ls : List Layer)
       (gs : List (DeviceMatrix × DeviceMatrix)),
      gs.length = ls.length →
      applyUpdates lr ls gs =
        List.zipWith (fun l g => updateLayer lr l g.1 g.2) ls gs) := by
  refine ⟨?_, ?_, ?_⟩
  · intro reg loss dataset sess net nb net1 reports nb1 h
    exact runEpochs_ok_length _ _ _ _ _ _ _ h
  · intro lr l wg bg
    exact ⟨rfl, rfl, rfl, rfl, rfl, rfl, rfl, rfl⟩
  · intro lr ls
    induction ls with
    | nil => intro gs hg; rfl
    | cons l ls ih =>
      intro gs hg
      rcases gs with _ | ⟨⟨wg, bg⟩, gs⟩
      · simp at hg
      · simp only [applyUpdates, List.zipWith]
        rw [ih gs (by simpa using hg)]

/-- Witness for C4: a two-epoch run over an empty batch list reports two
losses; `applyUpdates` and `updateLayer` evaluated at concrete inputs. -/
theorem sgd_epoch_count_and_inplace_updates_witness :
    SGDTrainer.run ⟨true, []⟩ ⟨fun _ _ => 0, fun p _ => p⟩ []
      ⟨1, 2, 1⟩ [] 0 = (.ok ([], [0, 0]), 0) ∧
    ([0, 0] : List ℚ).length = (⟨1, 2, 1⟩ : TrainingSession).epochs ∧
    (updateLayer 1 ⟨⟨1, 1, 0, [2], true⟩, ⟨1, 1, 1, [3], true⟩,
        Activation.identityAct, none⟩
      ⟨1, 1, 2, [4], true⟩ ⟨1, 1, 3, [6], true⟩).weight.buf = 0 ∧
    applyUpdates 1 [] [] =
      List.zipWith
        (fun (l : Layer) (g : DeviceMatrix × DeviceMatrix) =>
          updateLayer 1 l g.1 g.2)
        [] [] :=
  ⟨rfl,
   sgd_epoch_count_and_inplace_updates.1 ⟨true, []⟩
     ⟨fun _ _ => 0, fun p _ => p⟩ [] ⟨1, 2, 1⟩ [] 0 [] [0, 0] 0 rfl,
   (sgd_epoch_count_and_inplace_updates.2.1 1
     ⟨⟨1, 1, 0, [2], true⟩, ⟨1, 1, 1, [3], true⟩,
       Activation.identityAct, none⟩
     ⟨1, 1, 2, [4], true⟩ ⟨1, 1, 3, [6], true⟩).1,
   sgd_epoch_count_and_inplace_updates.2.2 1 [] [] rfl⟩
